import Mathlib

/-!
Shallow embedding of the core of the `puresnmp` SNMP client library
(files `puresnmp/api/raw.py` and `puresnmp/security/usm.py`) together
with theorems settling the frozen claims about it.

Conventions of the embedding:

* Raw byte strings are modelled as `List Nat`.
* Object identifiers are modelled as their tuple of sub-identifiers,
  `List Nat`.  The external `x690` library supplies the tuple order
  (Python tuple comparison) and the prefix-containment test; both are
  modelled here from the spec's words (spec section 3, "ObjectIdentifier").
* Python exceptions become an explicit error type `PyError`, with one
  constructor per exception class raised by the modelled code
  (`SnmpError`, `UnsupportedSecurityLevel`, `FaultySNMPImplementation`,
  `TypeError`, `AttributeError`, `KeyError`).  Fallible functions return
  `Except PyError _`.
* Cryptographic primitives and plugin registries (`puresnmp.auth`,
  `puresnmp.priv`) are external collaborators (spec section 1); they are
  passed in as function parameters so theorems quantify over them.
-/

namespace PureSnmp

/-- Python exception classes raised by the modelled code.  `snmpError`
is `puresnmp.exc.SnmpError`; `unsupportedSecurityLevel` is the
`UnsupportedSecurityLevel(USMError)` class of `security/usm.py` (the
only `USMError` subclass defined there); `faultySNMPImplementation` is
`puresnmp.exc.FaultySNMPImplementation`; `typeError`, `attributeError`
and `keyError` are the corresponding Python built-in exceptions. -/
inductive PyError where
  | snmpError (msg : String)
  | unsupportedSecurityLevel (msg : String)
  | faultySNMPImplementation (msg : String)
  | typeError (msg : String)
  | attributeError
  | keyError
deriving DecidableEq, Repr

/-- Test whether an error is an instance of the `USMError` class of
`security/usm.py`.  In the source, `UnsupportedSecurityLevel` is the
only subclass of `USMError`; a plain `SnmpError` is not a `USMError`. -/
def PyError.isUSMError : PyError → Bool
  | .unsupportedSecurityLevel _ => true
  | _ => false

/-- Test whether an error is the `UnsupportedSecurityLevel` class. -/
def PyError.isUnsupportedSecurityLevel : PyError → Bool
  | .unsupportedSecurityLevel _ => true
  | _ => false

/-- SNMP values carried in varbinds; only the distinctions the modelled
code inspects are kept (`EndOfMibView` is tested with `isinstance` in
`multigetnext` and `bulkget`). -/
inductive SnmpValue where
  | null
  | int (n : Int)
  | octets (b : List Nat)
  | endOfMibView
  | noSuchObject
  | noSuchInstance
deriving DecidableEq, Repr

/-- A VarBind is an (oid, value) pair (`puresnmp/varbind.py`). -/
structure VarBind where
  oid : List Nat
  value : SnmpValue
deriving DecidableEq, Repr

/-- Strict tuple order on OIDs.  Modelled from the spec: the OID type
supports "lexicographic order" (Python tuple comparison in the external
`x690` library, used by `requested < retrieved.oid` in `multigetnext`). -/
def oidLtB : List Nat → List Nat → Bool
  | [], [] => false
  | [], _ :: _ => true
  | _ :: _, [] => false
  | a :: as, b :: bs => if a < b then true else if a = b then oidLtB as bs else false

/-- Prefix containment of OIDs.  Modelled from the spec: "`a` contains
`b` iff `a`'s tuple is a prefix of `b`'s, with `a ≠ b`" (the external
`x690` membership test used by `varbind.oid in root`). -/
def oidContainsB (root x : List Nat) : Bool :=
  decide (root ≠ x) && root.isPrefixOf x

/-! ## Walk deduplication (`puresnmp/api/raw.py`, `deduped_varbinds`) -/

/-- Inner loop of `deduped_varbinds` (raw.py lines 115-127) over one flat
run of varbinds: a varbind is skipped when its OID is not contained in
any requested root or is already in the `yielded` set; otherwise its OID
is added to the set and the varbind is emitted.  The Python `set` is
modelled as a list with membership. -/
def dedupStep (requested : List (List Nat)) :
    List VarBind → List (List Nat) → List VarBind × List (List Nat)
  | [], yielded => ([], yielded)
  | vb :: rest, yielded =>
    if requested.any (fun r => oidContainsB r vb.oid) = false ∨ vb.oid ∈ yielded then
      dedupStep requested rest yielded
    else
      let r := dedupStep requested rest (vb.oid :: yielded)
      (vb :: r.1, r.2)

/-- The generator `deduped_varbinds(requested_oids, grouped_oids, yielded)`:
it iterates the groups of `grouped_oids` (the sorted dictionary values;
the sorting only permutes groups and is irrelevant to the claims, so the
group order is taken as given) and runs the skip/emit loop with the
shared `yielded` set threaded through. -/
def dedupedVarbinds (requested : List (List Nat)) :
    List (List VarBind) → List (List Nat) → List VarBind × List (List Nat)
  | [], yielded => ([], yielded)
  | g :: gs, yielded =>
    let s := dedupStep requested g yielded
    let r := dedupedVarbinds requested gs s.2
    (s.1 ++ r.1, r.2)

/-- The yields of `Client.multiwalk` (raw.py lines 437-481): one call to
`deduped_varbinds` per fetch round, all rounds sharing the single
`yielded` set created before the loop.  The fetcher results and the
grouping performed by the external `group_varbinds` utility are inputs
(`rounds`), so the theorems quantify over every possible device
behaviour. -/
def multiwalkLoop (oids : List (List Nat)) :
    List (List (List VarBind)) → List (List Nat) → List VarBind × List (List Nat)
  | [], yielded => ([], yielded)
  | groups :: rest, yielded =>
    let s := dedupedVarbinds oids groups yielded
    let r := multiwalkLoop oids rest s.2
    (s.1 ++ r.1, r.2)

/-- All varbinds yielded by a `multiwalk` whose successive grouped fetch
results are `rounds`; the `yielded` set starts empty (raw.py line 444). -/
def multiwalkYields (oids : List (List Nat)) (rounds : List (List (List VarBind))) :
    List VarBind :=
  (multiwalkLoop oids rounds []).1

/-! ## `Client.multigetnext` (raw.py lines 483-526) -/

/-- First pair `(requested, retrieved_oid)` of the positional zip that
violates the strict-successor check `requested < retrieved.oid`
(raw.py lines 520-525); `none` when every retained pair passes. -/
def firstNonSuccessor : List (List Nat) → List VarBind → Option (List Nat × List Nat)
  | req :: reqs, vb :: vbs =>
    if oidLtB req vb.oid = false then some (req, vb.oid)
    else firstNonSuccessor reqs vbs
  | _, _ => none

/-- Response processing of `Client.multigetnext`: reject a response whose
varbind count differs from the request's; truncate the response at the
first `EndOfMibView` varbind (the `break` at raw.py line 516); raise
`FaultySNMPImplementation` when a retained varbind's OID is not a strict
successor of the positionally corresponding requested OID; otherwise
return the retained prefix. -/
def multigetnextProcess (oids : List (List Nat)) (respVarbinds : List VarBind) :
    Except PyError (List VarBind) :=
  if respVarbinds.length ≠ oids.length then
    .error (.snmpError "Invalid response! unexpected varbind count")
  else
    let output := respVarbinds.takeWhile (fun vb => vb.value ≠ SnmpValue.endOfMibView)
    match firstNonSuccessor oids output with
    | some _ => .error (.faultySNMPImplementation "The OID is not a successor!")
    | none => .ok output

/-! ## `Client.bulkget` (raw.py lines 635-765) -/

/-- Result shape of `bulkget`: the scalar mapping and the ordered
repeating listing (raw.py `BulkResult`); the Python `dict`s are modelled
as association lists in insertion order. -/
structure BulkResult where
  scalars : List (List Nat × SnmpValue)
  listing : List (List Nat × SnmpValue)
deriving DecidableEq, Repr

/-- Response processing of `Client.bulkget` (raw.py lines 726-765): with
`oids = scalar_oids ++ repeating_oids` and `non_repeaters =
len(scalar_oids)`, compute `n = min(non_repeaters, len(oids))`,
`r = max(len(oids) - n, 0)` and reject the response with `SnmpError`
when it carries more than `n + max_list_size * r` varbinds; otherwise
split the varbinds into the scalar part and the repeating part, the
latter cut off at the first `EndOfMibView` (the `break` at line 762). -/
def bulkgetProcess (scalarOids repeatingOids : List (List Nat)) (maxListSize : Int)
    (respVarbinds : List VarBind) : Except PyError BulkResult :=
  let oids := scalarOids ++ repeatingOids
  let nonRepeaters := scalarOids.length
  let n : Int := min (nonRepeaters : Int) (oids.length : Int)
  let m : Int := maxListSize
  let r : Int := max ((oids.length : Int) - n) 0
  let expectedMaxVarbinds : Int := n + m * r
  if (respVarbinds.length : Int) > expectedMaxVarbinds then
    .error (.snmpError "Unexpected response. Too many varbinds!")
  else
    let scalarTmp := respVarbinds.take scalarOids.length
    let repeatingTmp := respVarbinds.drop scalarOids.length
    let scalarOut := scalarTmp.map (fun vb => (vb.oid, vb.value))
    let repeatingOut :=
      (repeatingTmp.takeWhile (fun vb => vb.value ≠ SnmpValue.endOfMibView)).map
        (fun vb => (vb.oid, vb.value))
    .ok ⟨scalarOut, repeatingOut⟩

/-! ## Request-id generation and `Client.multiset` (raw.py lines 595-633) -/

/-- Modelled from the spec: `get_request_id` (defined outside the given
sources, in `puresnmp/transport.py` / `puresnmp/util.py`) draws from a
"process-wide monotonic counter, wrapped into 31 bits".  Given the
counter state it returns the issued id and the next counter state. -/
def getRequestId (counter : Nat) : Nat × Nat :=
  (counter % 2 ^ 31, counter + 1)

/-- Modelled from the spec: `validate_response_id` (defined outside the
given sources, in `puresnmp/util.py`) fails with `SnmpError` when the
response's request id differs from the expected one. -/
def validateResponseId (requestId responseId : Nat) : Except PyError Unit :=
  if responseId ≠ requestId then .error (.snmpError "request id mismatch")
  else .ok ()

/-- The outgoing `SetRequest` PDU of `multiset`, reduced to the fields
the claim is about. -/
structure SetRequestModel where
  request_id : Nat
  varbinds : List VarBind
deriving DecidableEq, Repr

/-- Request-id usage of `Client.multiset` (raw.py lines 624-625): the PDU
is built with one freshly drawn request id, and `_send` is then handed a
second freshly drawn request id for response validation.  Returns the
PDU, the correlation id passed to `_send`, and the final counter. -/
def multisetSend (counter : Nat) (binds : List VarBind) :
    SetRequestModel × Nat × Nat :=
  let r1 := getRequestId counter
  let pdu : SetRequestModel := ⟨r1.1, binds⟩
  let r2 := getRequestId r1.2
  (pdu, r2.1, r2.2)

/-! ## Credentials (`puresnmp/credentials.py`, an external sibling of the
given sources; shape taken from the spec, section 3: `V1(community)`,
`V2C(community)`, `V3(username, auth?, priv?)`). Byte strings such as the
username are carried already ascii-encoded. -/

/-- Authentication part of V3 credentials: protocol name and localized
key.  An empty `method` models a credentials object whose auth-protocol
field is unset (Python falsy). -/
structure AuthCreds where
  method : String
  key : List Nat
deriving DecidableEq, Repr

/-- Privacy part of V3 credentials, same shape as `AuthCreds`. -/
structure PrivCreds where
  method : String
  key : List Nat
deriving DecidableEq, Repr

/-- The credentials sum type. -/
inductive Credentials where
  | v1 (community : List Nat)
  | v2c (community : List Nat)
  | v3 (username : List Nat) (auth : Option AuthCreds) (priv : Option PrivCreds)
deriving DecidableEq, Repr

/-- Python `type(credentials)`: the concrete credentials class. -/
inductive CredKind where
  | kV1
  | kV2c
  | kV3
deriving DecidableEq, Repr

/-- The concrete class of a credentials value. -/
def credKind : Credentials → CredKind
  | .v1 _ => .kV1
  | .v2c _ => .kV2c
  | .v3 _ _ _ => .kV3

/-- Modelled from the spec: `credentials.mpm`, the message-processing
model number associated with each credentials class (v1 = 0, v2c = 1,
v3 = 3); `puresnmp/credentials.py` is outside the given sources. -/
def credMpmVersion : Credentials → Nat
  | .v1 _ => 0
  | .v2c _ => 1
  | .v3 _ _ _ => 3

/-! ## `Client.reconfigure` (raw.py lines 267-310) -/

/-- SNMPv3 context (raw.py `Context`). -/
structure Context where
  engine_id : List Nat
  name : List Nat
deriving DecidableEq, Repr

/-- Engine timing cache: engine id to (boots, time).  Python dicts are
modelled as association lists. -/
def LcdModel : Type := List (List Nat × Nat × Nat)

instance : DecidableEq LcdModel := by
  unfold LcdModel
  infer_instance

/-- The overridable client configuration (raw.py `ClientConfig`). -/
structure ClientConfig where
  credentials : Credentials
  context : Context
  lcd : LcdModel
  timeout : Nat
  retries : Nat
deriving DecidableEq

/-- Modelled from the spec: the message-processing model object returned
by `mpm.create(version, handler, lcd)` (the `puresnmp.plugins.mpm`
registry is outside the given sources); it holds the version it was
created for and the local configuration datastore it was handed. -/
structure MPModel where
  version : Nat
  lcd : LcdModel
deriving DecidableEq

/-- Modelled from the spec: `mpm.create`. -/
def mpmCreate (version : Nat) (lcd : LcdModel) : MPModel := ⟨version, lcd⟩

/-- The mutable client attributes touched by `reconfigure`. -/
structure ClientState where
  config : ClientConfig
  mpm : MPModel
deriving DecidableEq

/-- The keyword arguments accepted by `reconfigure`: each field of
`ClientConfig` may be overridden (`dataclasses.replace`). -/
structure Overrides where
  credentials : Option Credentials
  context : Option Context
  lcd : Option LcdModel
  timeout : Option Nat
  retries : Option Nat

/-- Python `dataclasses.replace(old_config, **kwargs)`. -/
def applyOverrides (c : ClientConfig) (o : Overrides) : ClientConfig :=
  ⟨o.credentials.getD c.credentials, o.context.getD c.context,
   o.lcd.getD c.lcd, o.timeout.getD c.timeout, o.retries.getD c.retries⟩

/-- The client state seen inside the `reconfigure` scope (raw.py lines
294-306): the config with the overrides applied and, exactly when the
override switches the concrete credentials class, a freshly created MPM
holding a fresh empty LCD. -/
def reconfigureMid (s : ClientState) (o : Overrides) : ClientState :=
  let new_config := applyOverrides s.config o
  let new_mpm :=
    match o.credentials with
    | some newCreds =>
      if credKind s.config.credentials = credKind newCreds then s.mpm
      else mpmCreate (credMpmVersion newCreds) []
    | none => s.mpm
  ⟨new_config, new_mpm⟩

/-- The whole `reconfigure` context manager (raw.py lines 292-310):
snapshot `(config, mpm)`, run the body on the overridden state, and in
the `finally` block restore the snapshot whether the body returned
normally or raised.  The body is an arbitrary state transformer that may
itself fail. -/
def reconfigureRun (s : ClientState) (o : Overrides)
    (body : ClientState → Except PyError Unit × ClientState) :
    Except PyError Unit × ClientState :=
  let old_config := s.config
  let old_mpm := s.mpm
  let res := body (reconfigureMid s o)
  (res.1, { res.2 with config := old_config, mpm := old_mpm })

/-! ## USM data model (`puresnmp/security/usm.py`)

The ASN.1/BER codec of the external `x690` library is an out-of-scope
collaborator (spec section 1).  It is modelled by a concrete injective
length-prefixed serialization for which decode-after-encode is the
identity — the round-trip contract the spec states for the codec. -/

/-- The `USMSecurityParameters` dataclass (usm.py lines 48-59).  Engine
boots and time are non-negative integers. -/
structure USMSecurityParameters where
  authoritative_engine_id : List Nat
  authoritative_engine_boots : Nat
  authoritative_engine_time : Nat
  user_name : List Nat
  auth_params : List Nat
  priv_params : List Nat
deriving DecidableEq, Repr

/-- Length-prefixed encoding of one byte-string field (model of an
`OctetString` element of the security-parameters sequence). -/
def encField (b : List Nat) : List Nat := b.length :: b

/-- Decode one length-prefixed field, returning it and the rest. -/
def decField : List Nat → Option (List Nat × List Nat)
  | [] => none
  | n :: rest => if n ≤ rest.length then some (rest.take n, rest.drop n) else none

/-- Model of `bytes(USMSecurityParameters)` (usm.py lines 80-91): the
serialized security-parameters sequence. -/
def encodeSecParams (p : USMSecurityParameters) : List Nat :=
  encField p.authoritative_engine_id ++
    p.authoritative_engine_boots :: p.authoritative_engine_time ::
      (encField p.user_name ++ encField p.auth_params ++ encField p.priv_params)

/-- Model of `USMSecurityParameters.decode` (usm.py lines 61-67); fails
on bytes that are not a well-formed security-parameters sequence. -/
def decodeSecParams (bs : List Nat) : Option USMSecurityParameters :=
  match decField bs with
  | none => none
  | some (eid, rest) =>
    match rest with
    | boots :: time :: rest2 =>
      match decField rest2 with
      | none => none
      | some (uname, rest3) =>
        match decField rest3 with
        | none => none
        | some (ap, rest4) =>
          match decField rest4 with
          | none => none
          | some (pp, rest5) =>
            if rest5 = [] then some ⟨eid, boots, time, uname, ap, pp⟩ else none
    | _ => none

/-- V3 message flags (`puresnmp/adt.py`, external sibling; shape from
spec section 3). -/
structure V3Flags where
  auth : Bool
  priv : Bool
  reportable : Bool
deriving DecidableEq, Repr

/-- V3 message header (`HeaderData`; shape from spec section 3). -/
structure HeaderData where
  message_id : Nat
  message_max_size : Nat
  flags : V3Flags
  security_model : Nat
deriving DecidableEq, Repr

/-- The scoped-PDU slot of a v3 message: a structured scoped PDU
(carried here as its serialized bytes) or, when privacy is in effect, an
`OctetString` of ciphertext. -/
inductive ScopedPduField where
  | plain (b : List Nat)
  | octets (b : List Nat)
deriving DecidableEq, Repr

/-- The v3 `Message` (`puresnmp/adt.py`; shape from spec section 3:
version, header, opaque security-parameters bytes, scoped PDU). -/
structure Message where
  version : Nat
  global_data : HeaderData
  security_parameters : List Nat
  scoped_pdu : ScopedPduField
deriving DecidableEq, Repr

/-- Serialized bytes of the scoped-PDU slot, with a tag distinguishing
the two shapes so the whole-message serialization stays injective. -/
def spduBytes : ScopedPduField → List Nat
  | .plain b => 0 :: encField b
  | .octets b => 1 :: encField b

/-- Bit encoding of the flags octet. -/
def flagsBits (f : V3Flags) : Nat :=
  (if f.auth then 1 else 0) + (if f.priv then 2 else 0) + (if f.reportable then 4 else 0)

/-- Model of `bytes(message)`: the serialized wire bytes of the whole v3
message — version, header, security parameters and scoped PDU. -/
def messageBytes (m : Message) : List Nat :=
  m.version :: m.global_data.message_id :: m.global_data.message_max_size ::
    flagsBits m.global_data.flags :: m.global_data.security_model ::
      (encField m.security_parameters ++ spduBytes m.scoped_pdu)

/-- The `reset_digest` helper (usm.py lines 20-29): decode the message's
security parameters, replace `auth_params` by twelve zero bytes, and
re-serialize them into an otherwise identical message. -/
def reset_digest (message : Message) : Except PyError Message :=
  match decodeSecParams message.security_parameters with
  | none => .error (.snmpError "could not decode security parameters")
  | some secparams =>
    let neutral : USMSecurityParameters :=
      { secparams with auth_params := List.replicate 12 0 }
    .ok { message with security_parameters := encodeSecParams neutral }

/-! ## USM outbound path (`UserSecurityModel.generate_request_message`,
usm.py lines 121-231)

The crypto plugins are external: `authOutFn key data engine_id` models
`auth.create(method).authenticate_outgoing_message` and
`encryptFn key engine_id boots plaintext` models
`priv.create(method).encrypt_data`, returning ciphertext and salt. -/

/-- Lookup in `self.local_config` (a Python dict keyed by engine id). -/
def lookupEngine : LcdModel → List Nat → Option (Nat × Nat)
  | [], _ => none
  | (k, b, t) :: rest, e => if k = e then some (b, t) else lookupEngine rest e

/-- The body of `generate_request_message` after the credential checks
(usm.py lines 145-231): encrypt the scoped PDU when privacy is
configured, build the unauthenticated message whose security parameters
carry an empty `auth_params`, then — when authentication is configured —
hash the serialized message with the `auth_params` slot zero-filled
(`reset_digest`) and splice the digest into the final message. -/
def usmSecureMessage (authOutFn : List Nat → List Nat → List Nat → List Nat)
    (encryptFn : List Nat → List Nat → Nat → List Nat → List Nat × List Nat)
    (message : Message) (security_engine_id : List Nat)
    (engine_boots engine_time : Nat) (security_name : List Nat)
    (authc : Option AuthCreds) (privc : Option PrivCreds) :
    Except PyError Message :=
  let ep : ScopedPduField × List Nat :=
    match privc with
    | some p =>
      let es := encryptFn p.key security_engine_id engine_boots (spduBytes message.scoped_pdu)
      (ScopedPduField.octets es.1, es.2)
    | none => (message.scoped_pdu, [])
  let scoped_pdu := ep.1
  let salt := ep.2
  let unauthed_message : Message :=
    { message with
      scoped_pdu := scoped_pdu,
      security_parameters :=
        encodeSecParams
          ⟨security_engine_id, engine_boots, engine_time, security_name, [], salt⟩ }
  match authc with
  | some a =>
    if a.method = "" then
      .error (.unsupportedSecurityLevel
        "Security level needs authentication, but auth-proto is missing")
    else
      match reset_digest unauthed_message with
      | .error _ => .error (.snmpError "authenticationFailure")
      | .ok without_digest =>
        let auth_result := authOutFn a.key (messageBytes without_digest) security_engine_id
        .ok ⟨unauthed_message.version, unauthed_message.global_data,
          encodeSecParams
            ⟨security_engine_id, engine_boots, engine_time, security_name,
              auth_result, salt⟩,
          unauthed_message.scoped_pdu⟩
  | none =>
    .ok ⟨message.version, message.global_data,
      encodeSecParams
        ⟨security_engine_id, engine_boots, engine_time, security_name, [], salt⟩,
      scoped_pdu⟩

/-- `UserSecurityModel.generate_request_message` (usm.py lines 121-231):
reject non-V3 credentials with `TypeError`; look up the engine timing in
`self.local_config` (a missing entry is a Python `KeyError`); when
privacy is configured, evaluating `all([credentials.priv.method,
credentials.auth.method])` touches `credentials.auth.method`, which on
absent auth credentials is a Python `AttributeError`, and an unset
auth or priv protocol fails with `UnsupportedSecurityLevel`; then build
the secured message. -/
def generateRequestMessage (authOutFn : List Nat → List Nat → List Nat → List Nat)
    (encryptFn : List Nat → List Nat → Nat → List Nat → List Nat × List Nat)
    (localConfig : LcdModel) (message : Message) (security_engine_id : List Nat)
    (credentials : Credentials) : Except PyError Message :=
  match credentials with
  | .v1 _ => .error (.typeError "Credentials must be a V3 instance for this scurity model!")
  | .v2c _ => .error (.typeError "Credentials must be a V3 instance for this scurity model!")
  | .v3 username authc privc =>
    let security_name := username
    match lookupEngine localConfig security_engine_id with
    | none => .error .keyError
    | some bt =>
      let engine_boots := bt.1
      let engine_time := bt.2
      match privc, authc with
      | some _, none => .error .attributeError
      | some p, some a =>
        if p.method = "" ∨ a.method = "" then
          .error (.unsupportedSecurityLevel
            "Security level needs privacy, but either auth-proto or priv-proto are missing")
        else
          usmSecureMessage authOutFn encryptFn message security_engine_id
            engine_boots engine_time security_name (some a) (some p)
      | none, _ =>
        usmSecureMessage authOutFn encryptFn message security_engine_id
          engine_boots engine_time security_name authc none

/-! ## USM inbound path (`UserSecurityModel.process_incoming_message`,
usm.py lines 233-293) -/

/-- An authentication plugin as returned by `auth.create`: `verify key
data digest engine_id` models `authenticate_incoming_message`, `true`
meaning the digest checks out. -/
structure AuthAlg where
  verify : List Nat → List Nat → List Nat → List Nat → Bool

/-- A privacy plugin as returned by `priv.create`: `decrypt key
ciphertext engine_id salt` models `decrypt_data`, `none` meaning the
decryption (or the subsequent scoped-PDU parse) raised. -/
structure PrivAlg where
  decrypt : List Nat → List Nat → List Nat → List Nat → Option (List Nat)

/-- `credentials.username` attribute access: V1/V2C instances have no
such attribute (Python `AttributeError`). -/
def credUsername : Credentials → Except PyError (List Nat)
  | .v3 u _ _ => .ok u
  | _ => .error .attributeError

/-- `credentials.auth` attribute access. -/
def credAuth : Credentials → Except PyError (Option AuthCreds)
  | .v3 _ a _ => .ok a
  | _ => .error .attributeError

/-- `credentials.priv` attribute access. -/
def credPriv : Credentials → Except PyError (Option PrivCreds)
  | .v3 _ _ p => .ok p
  | _ => .error .attributeError

/-- `UserSecurityModel.process_incoming_message` (usm.py lines 233-293):
decode the security parameters, reject an unknown user name with a plain
`SnmpError`, resolve the auth plugin from `credentials.auth.method`
(an `AttributeError` when auth credentials are absent), then — when the
message's auth flag is set — verify the digest over the serialized
message with the `auth_params` slot zero-filled, and — when the priv
flag is set — decrypt the opaque scoped PDU.  Every failure inside the
two `try` blocks surfaces as `SnmpError("authenticationFailure")`
respectively `SnmpError("DecryptionError")`, including the unencrypted-
PDU `SnmpError` raised inside the privacy `try` block.  `authCreate` and
`privCreate` model the external plugin registries `auth.create` and
`priv.create`. -/
def processIncomingMessage (authCreate : String → Option AuthAlg)
    (privCreate : String → Option PrivAlg) (message : Message)
    (credentials : Credentials) : Except PyError Message :=
  match decodeSecParams message.security_parameters with
  | none => .error (.snmpError "could not decode security parameters")
  | some security_params =>
    match credUsername credentials with
    | .error e => .error e
    | .ok uname =>
      if security_params.user_name ≠ uname then
        .error (.snmpError "Unknown User")
      else
        match credAuth credentials with
        | .error e => .error e
        | .ok none => .error .attributeError
        | .ok (some ac) =>
          let auth_method := authCreate ac.method
          if message.global_data.flags.auth && auth_method.isNone then
            .error (.unsupportedSecurityLevel
              "Security level needs authentication, but auth-proto is missing")
          else
            let authStage : Except PyError Unit :=
              if message.global_data.flags.auth then
                match reset_digest message with
                | .error _ => .error (.snmpError "authenticationFailure")
                | .ok without_digest =>
                  match auth_method with
                  | none => .error (.snmpError "authenticationFailure")
                  | some alg =>
                    if alg.verify ac.key (messageBytes without_digest)
                        security_params.auth_params
                        security_params.authoritative_engine_id then
                      .ok ()
                    else .error (.snmpError "authenticationFailure")
              else .ok ()
            match authStage with
            | .error e => .error e
            | .ok _ =>
              if message.global_data.flags.priv then
                match credPriv credentials with
                | .error e => .error e
                | .ok none => .error .attributeError
                | .ok (some pc) =>
                  match privCreate pc.method with
                  | none => .error (.snmpError "DecryptionError")
                  | some palg =>
                    match message.scoped_pdu with
                    | .plain _ => .error (.snmpError "DecryptionError")
                    | .octets ct =>
                      match palg.decrypt pc.key ct
                          security_params.authoritative_engine_id
                          security_params.priv_params with
                      | none => .error (.snmpError "DecryptionError")
                      | some decrypted =>
                        .ok { message with scoped_pdu := .plain decrypted }
              else .ok message

/-! ## Codec lemmas -/

/-- Decoding a length-prefixed field recovers it and the rest. -/
theorem decField_encField (b rest : List Nat) :
    decField (encField b ++ rest) = some (b, rest) := by
  simp [decField, encField]

/-- Decoding a single trailing length-prefixed field. -/
theorem decField_encField_nil (b : List Nat) :
    decField (encField b) = some (b, []) := by
  have h := decField_encField b []
  simpa using h

/-- Round trip of the security-parameters serialization: decoding the
encoded sequence recovers the parameters. -/
theorem decodeSecParams_encodeSecParams (p : USMSecurityParameters) :
    decodeSecParams (encodeSecParams p) = some p := by
  simp [decodeSecParams, encodeSecParams, decField_encField, decField_encField_nil,
    List.append_assoc]

/-- Behaviour of `reset_digest` on a message whose security parameters
decode: everything but `auth_params` is kept, and `auth_params` becomes
exactly twelve zero bytes. -/
theorem reset_digest_eq (m : Message) (p : USMSecurityParameters)
    (h : decodeSecParams m.security_parameters = some p) :
    reset_digest m =
      .ok { m with security_parameters :=
              encodeSecParams { p with auth_params := List.replicate 12 0 } } := by
  simp [reset_digest, h]

/-- Digest placement of the outbound auth path: whenever
`usmSecureMessage` succeeds with authentication credentials, the
`auth_params` of the produced message are the digest computed by the
auth primitive over the serialized bytes of the very same message with
its `auth_params` slot replaced by twelve zero bytes. -/
theorem usmSecureMessage_auth_digest
    (aF : List Nat → List Nat → List Nat → List Nat)
    (eF : List Nat → List Nat → Nat → List Nat → List Nat × List Nat)
    (msg : Message) (eng : List Nat) (boots time : Nat) (name : List Nat)
    (a : AuthCreds) (privc : Option PrivCreds) (out : Message)
    (h : usmSecureMessage aF eF msg eng boots time name (some a) privc = .ok out) :
    ∃ sp, decodeSecParams out.security_parameters = some sp ∧
      sp.auth_params =
        aF a.key
          (messageBytes
            { out with security_parameters :=
                encodeSecParams { sp with auth_params := List.replicate 12 0 } })
          eng := by
  cases privc with
  | none =>
    rw [usmSecureMessage] at h
    by_cases hm : a.method = ""
    · simp [hm] at h
    · rw [if_neg hm] at h
      rw [reset_digest_eq _ ⟨eng, boots, time, name, [], []⟩
        (by simp [decodeSecParams_encodeSecParams])] at h
      rw [Except.ok.injEq] at h
      subst h
      exact ⟨⟨eng, boots, time, name, _, []⟩,
        decodeSecParams_encodeSecParams _, rfl⟩
  | some p =>
    rw [usmSecureMessage] at h
    by_cases hm : a.method = ""
    · simp [hm] at h
    · rw [if_neg hm] at h
      rw [reset_digest_eq _
        ⟨eng, boots, time, name, [],
          (eF p.key eng boots (spduBytes msg.scoped_pdu)).2⟩
        (by simp [decodeSecParams_encodeSecParams])] at h
      rw [Except.ok.injEq] at h
      subst h
      exact ⟨⟨eng, boots, time, name, _,
        (eF p.key eng boots (spduBytes msg.scoped_pdu)).2⟩,
        decodeSecParams_encodeSecParams _, rfl⟩

/-- Digest verification of the inbound auth path: for an authenticated,
unencrypted incoming message addressed to the right user, acceptance is
decided exactly by running the auth primitive over the serialized bytes
of the message with its `auth_params` slot replaced by twelve zero
bytes. -/
theorem processIncoming_auth_verify
    (aCr : String → Option AuthAlg) (pCr : String → Option PrivAlg)
    (msg : Message) (u : List Nat) (a : AuthCreds) (privc : Option PrivCreds)
    (alg : AuthAlg) (sp : USMSecurityParameters)
    (hCr : aCr a.method = some alg)
    (hAuth : msg.global_data.flags.auth = true)
    (hPriv : msg.global_data.flags.priv = false)
    (hDec : decodeSecParams msg.security_parameters = some sp)
    (hU : sp.user_name = u) :
    processIncomingMessage aCr pCr msg (.v3 u (some a) privc) = .ok msg ↔
      alg.verify a.key
        (messageBytes
          { msg with security_parameters :=
              encodeSecParams { sp with auth_params := List.replicate 12 0 } })
        sp.auth_params sp.authoritative_engine_id = true := by
  have hrd := reset_digest_eq msg sp hDec
  simp only [processIncomingMessage, hDec, credUsername, credAuth, hrd, hCr,
    hAuth, hPriv]
  rw [if_neg (by simp [hU])]
  simp only [Option.isNone_some, Bool.and_false, Bool.false_eq_true, if_false]
  by_cases hv : alg.verify a.key
      (messageBytes
        { msg with security_parameters :=
            encodeSecParams { sp with auth_params := [0, 0, 0, 0, 0, 0, 0, 0, 0, 0, 0, 0] } })
      sp.auth_params sp.authoritative_engine_id = true
  · simp [hv]
  · simp [hv]

/-- C1: for every outgoing v3 message with authentication enabled,
`generate_request_message` places into `auth_params` a digest computed
over the serialized bytes of the whole produced message in which the
`auth_params` field of the security parameters is exactly 12 zero bytes
(all other fields identical); and `process_incoming_message` verifies an
authenticated incoming message by hashing the same zeroed copy of the
message. -/
theorem claim_C1_auth_digest_over_zeroed_message :
    (∀ (aF : List Nat → List Nat → List Nat → List Nat)
        (eF : List Nat → List Nat → Nat → List Nat → List Nat × List Nat)
        (lc : LcdModel) (msg : Message) (eng : List Nat) (u : List Nat)
        (a : AuthCreds) (privc : Option PrivCreds) (out : Message),
      generateRequestMessage aF eF lc msg eng (.v3 u (some a) privc) = .ok out →
      ∃ sp, decodeSecParams out.security_parameters = some sp ∧
        sp.auth_params =
          aF a.key
            (messageBytes
              { out with security_parameters :=
                  encodeSecParams { sp with auth_params := List.replicate 12 0 } })
            eng) ∧
    (∀ (aCr : String → Option AuthAlg) (pCr : String → Option PrivAlg)
        (msg : Message) (u : List Nat) (a : AuthCreds) (privc : Option PrivCreds)
        (alg : AuthAlg) (sp : USMSecurityParameters),
      aCr a.method = some alg →
      msg.global_data.flags.auth = true →
      msg.global_data.flags.priv = false →
      decodeSecParams msg.security_parameters = some sp →
      sp.user_name = u →
      (processIncomingMessage aCr pCr msg (.v3 u (some a) privc) = .ok msg ↔
        alg.verify a.key
          (messageBytes
            { msg with security_parameters :=
                encodeSecParams { sp with auth_params := List.replicate 12 0 } })
          sp.auth_params sp.authoritative_engine_id = true)) := by
  constructor
  · intro aF eF lc msg eng u a privc out h
    simp only [generateRequestMessage] at h
    cases hl : lookupEngine lc eng with
    | none => rw [hl] at h; cases h
    | some bt =>
      rw [hl] at h
      cases privc with
      | none =>
        exact usmSecureMessage_auth_digest aF eF msg eng bt.1 bt.2 u a none out h
      | some p =>
        simp only at h
        by_cases hm : p.method = "" ∨ a.method = ""
        · rw [if_pos hm] at h; cases h
        · rw [if_neg hm] at h
          exact usmSecureMessage_auth_digest aF eF msg eng bt.1 bt.2 u a (some p) out h
  · intro aCr pCr msg u a privc alg sp hCr hAuth hPriv hDec hU
    exact processIncoming_auth_verify aCr pCr msg u a privc alg sp hCr hAuth hPriv hDec hU

/-- Concrete auth primitive used in the C1 witness. -/
def c1AF : List Nat → List Nat → List Nat → List Nat := fun _ _ _ => List.replicate 12 9

/-- Concrete priv primitive used in the C1 witness. -/
def c1EF : List Nat → List Nat → Nat → List Nat → List Nat × List Nat :=
  fun _ _ _ _ => ([], [])

/-- Concrete outgoing message used in the C1 witness. -/
def c1Msg : Message := ⟨3, ⟨1, 2, ⟨true, false, true⟩, 3⟩, [], .plain []⟩

/-- Concrete credentials used in the C1 witness. -/
def c1Creds : Credentials := .v3 [7] (some ⟨"md5", [5]⟩) none

/-- The message `generate_request_message` produces on the C1 witness
input. -/
def c1Out : Message :=
  ⟨3, ⟨1, 2, ⟨true, false, true⟩, 3⟩,
    encodeSecParams ⟨[], 0, 0, [7], List.replicate 12 9, []⟩, .plain []⟩

/-- Concrete inbound security parameters used in the C1 witness. -/
def c2SP : USMSecurityParameters := ⟨[4], 0, 0, [7], [8, 8], []⟩

/-- Concrete inbound message used in the C1 witness. -/
def c2Msg : Message := ⟨3, ⟨1, 2, ⟨true, false, true⟩, 3⟩, encodeSecParams c2SP, .plain []⟩

/-- Concrete auth plugin registry used in the C1 witness. -/
def c2ACr : String → Option AuthAlg := fun _ => some ⟨fun _ _ _ _ => true⟩

/-- Concrete priv plugin registry used in the C1 witness. -/
def c2PCr : String → Option PrivAlg := fun _ => none

/-- Concrete auth plugin used in the C1 witness. -/
def c2Alg : AuthAlg := ⟨fun _ _ _ _ => true⟩

/-- Witness for C1: the hypotheses of both halves hold on a concrete
run, and the conclusions evaluate there. -/
theorem claim_C1_witness :
    (generateRequestMessage c1AF c1EF [([], 0, 0)] c1Msg [] c1Creds = .ok c1Out ∧
      ∃ sp, decodeSecParams c1Out.security_parameters = some sp ∧
        sp.auth_params =
          c1AF [5]
            (messageBytes
              { c1Out with security_parameters :=
                  encodeSecParams { sp with auth_params := List.replicate 12 0 } })
            []) ∧
    (c2ACr "md5" = some c2Alg ∧
      (processIncomingMessage c2ACr c2PCr c2Msg (.v3 [7] (some ⟨"md5", [5]⟩) none) =
          .ok c2Msg ↔
        c2Alg.verify [5]
          (messageBytes
            { c2Msg with security_parameters :=
                encodeSecParams { c2SP with auth_params := List.replicate 12 0 } })
          c2SP.auth_params c2SP.authoritative_engine_id = true)) := by
  refine ⟨⟨?_, ?_⟩, ?_, ?_⟩
  · rfl
  · exact claim_C1_auth_digest_over_zeroed_message.1 c1AF c1EF [([], 0, 0)] c1Msg []
      [7] ⟨"md5", [5]⟩ none c1Out rfl
  · rfl
  · exact claim_C1_auth_digest_over_zeroed_message.2 c2ACr c2PCr c2Msg [7]
      ⟨"md5", [5]⟩ none c2Alg c2SP rfl rfl rfl rfl rfl

/-! ## Walk dedup invariants -/

/-- Invariant of the skip/emit loop: every emitted varbind is contained
in a requested root and was not in the incoming `yielded` set, the
emitted OIDs are pairwise distinct, and the outgoing set is the incoming
set plus the emitted OIDs. -/
theorem dedupStep_spec (requested : List (List Nat)) (vbs : List VarBind)
    (yielded : List (List Nat)) :
    (∀ vb ∈ (dedupStep requested vbs yielded).1,
        requested.any (fun r => oidContainsB r vb.oid) = true ∧ vb.oid ∉ yielded) ∧
    ((dedupStep requested vbs yielded).1.map VarBind.oid).Nodup ∧
    (∀ o, o ∈ (dedupStep requested vbs yielded).2 ↔
        o ∈ yielded ∨ o ∈ (dedupStep requested vbs yielded).1.map VarBind.oid) := by
  induction vbs generalizing yielded with
  | nil => simp [dedupStep]
  | cons vb rest ih =>
    by_cases hc : requested.any (fun r => oidContainsB r vb.oid) = false ∨ vb.oid ∈ yielded
    · rw [dedupStep, if_pos hc]
      exact ih yielded
    · push_neg at hc
      obtain ⟨h1, h2⟩ := hc
      have h1t : requested.any (fun r => oidContainsB r vb.oid) = true := by
        cases hb : requested.any (fun r => oidContainsB r vb.oid) with
        | false => exact absurd hb h1
        | true => rfl
      rw [dedupStep, if_neg (by push_neg; exact ⟨h1, h2⟩)]
      obtain ⟨ihA, ihB, ihC⟩ := ih (vb.oid :: yielded)
      refine ⟨?_, ?_, ?_⟩
      · intro x hx
        rcases List.mem_cons.mp hx with hx | hx
        · subst hx; exact ⟨h1t, h2⟩
        · obtain ⟨hA1, hA2⟩ := ihA x hx
          exact ⟨hA1, fun hmem => hA2 (List.mem_cons_of_mem _ hmem)⟩
      · rw [List.map_cons, List.nodup_cons]
        refine ⟨?_, ihB⟩
        intro hmem
        obtain ⟨x, hx, hxe⟩ := List.mem_map.mp hmem
        exact (ihA x hx).2 (by rw [hxe]; exact List.mem_cons_self _ _)
      · intro o
        rw [ihC o]
        simp only [List.mem_cons, List.map_cons]
        tauto

/-- The skip/emit loop over a concatenation is the loop over the first
part followed by the loop over the second part with the threaded set. -/
theorem dedupStep_append (requested : List (List Nat)) (a b : List VarBind)
    (yielded : List (List Nat)) :
    dedupStep requested (a ++ b) yielded =
      ((dedupStep requested a yielded).1 ++
        (dedupStep requested b (dedupStep requested a yielded).2).1,
       (dedupStep requested b (dedupStep requested a yielded).2).2) := by
  induction a generalizing yielded with
  | nil => simp [dedupStep]
  | cons vb rest ih =>
    by_cases hc : requested.any (fun r => oidContainsB r vb.oid) = false ∨ vb.oid ∈ yielded
    · rw [List.cons_append, dedupStep, if_pos hc, dedupStep, if_pos hc, ih]
    · rw [List.cons_append, dedupStep, if_neg hc, dedupStep, if_neg hc, ih]
      simp

/-- The per-group generator equals the loop over the flattened groups. -/
theorem dedupedVarbinds_eq_flat (requested : List (List Nat))
    (groups : List (List VarBind)) (yielded : List (List Nat)) :
    dedupedVarbinds requested groups yielded =
      dedupStep requested groups.flatten yielded := by
  induction groups generalizing yielded with
  | nil => simp [dedupedVarbinds, dedupStep]
  | cons g gs ih =>
    rw [dedupedVarbinds, List.flatten_cons, dedupStep_append, ih]

/-- The whole multiwalk loop equals one skip/emit loop over all rounds
flattened, sharing the single `yielded` set. -/
theorem multiwalkLoop_eq_flat (oids : List (List Nat))
    (rounds : List (List (List VarBind))) (yielded : List (List Nat)) :
    multiwalkLoop oids rounds yielded =
      dedupStep oids (rounds.map List.flatten).flatten yielded := by
  induction rounds generalizing yielded with
  | nil => simp [multiwalkLoop, dedupStep]
  | cons r rs ih =>
    rw [multiwalkLoop, List.map_cons, List.flatten_cons, dedupStep_append,
      dedupedVarbinds_eq_flat, ih]

/-- C2: every varbind yielded by a walk or multiwalk is prefix-contained
in at least one requested root, and no OID is yielded more than once
across the entire iteration, whatever the device returns in each fetch
round. -/
theorem claim_C2_walk_containment_dedup (oids : List (List Nat))
    (rounds : List (List (List VarBind))) :
    (∀ vb ∈ multiwalkYields oids rounds,
        ∃ root ∈ oids, oidContainsB root vb.oid = true) ∧
    ((multiwalkYields oids rounds).map VarBind.oid).Nodup := by
  have hs := dedupStep_spec oids (rounds.map List.flatten).flatten []
  rw [multiwalkYields, multiwalkLoop_eq_flat]
  refine ⟨?_, hs.2.1⟩
  intro vb hvb
  have := (hs.1 vb hvb).1
  obtain ⟨root, hroot, hcont⟩ := List.any_eq_true.mp this
  exact ⟨root, hroot, hcont⟩

/-- Witness for C2: the guarantees evaluated on a concrete multiwalk
with two rounds that try to smuggle in an out-of-tree OID and a
duplicate. -/
theorem claim_C2_witness :
    (∀ vb ∈ multiwalkYields [[1, 3]] [[[⟨[1, 3, 1], .int 1⟩, ⟨[2, 9], .int 2⟩]],
        [[⟨[1, 3, 1], .int 1⟩, ⟨[1, 3, 2], .int 3⟩]]],
        ∃ root ∈ [[1, 3]], oidContainsB root vb.oid = true) ∧
    ((multiwalkYields [[1, 3]] [[[⟨[1, 3, 1], .int 1⟩, ⟨[2, 9], .int 2⟩]],
        [[⟨[1, 3, 1], .int 1⟩, ⟨[1, 3, 2], .int 3⟩]]]).map VarBind.oid).Nodup :=
  claim_C2_walk_containment_dedup [[1, 3]]
    [[[⟨[1, 3, 1], .int 1⟩, ⟨[2, 9], .int 2⟩]],
     [[⟨[1, 3, 1], .int 1⟩, ⟨[1, 3, 2], .int 3⟩]]]

/-! ## `multigetnext` lemmas -/

/-- The strict-successor scan passes exactly when every positional pair
of the zip passes. -/
theorem firstNonSuccessor_eq_none_iff (reqs : List (List Nat)) (vbs : List VarBind) :
    firstNonSuccessor reqs vbs = none ↔
      ∀ p ∈ reqs.zip (vbs.map VarBind.oid), oidLtB p.1 p.2 = true := by
  induction reqs generalizing vbs with
  | nil => simp [firstNonSuccessor]
  | cons req reqs ih =>
    cases vbs with
    | nil => simp [firstNonSuccessor]
    | cons vb vbs =>
      by_cases h : oidLtB req vb.oid = false
      · rw [firstNonSuccessor, if_pos h]
        simp [h]
      · have ht : oidLtB req vb.oid = true := by
          cases hb : oidLtB req vb.oid with
          | false => exact absurd hb h
          | true => rfl
        rw [firstNonSuccessor, if_neg h]
        simp [ht, ih]

/-- C10: `multigetnext` truncates the response at the first
`EndOfMibView` varbind — that varbind and everything after it are
dropped — and applies the strict-successor check only to the retained
prefix, pairing it positionally with the requested OIDs from the start:
it returns the retained prefix exactly when every retained pair passes,
and raises `FaultySNMPImplementation` exactly when some retained pair
fails. -/
theorem claim_C10_multigetnext_truncation (oids : List (List Nat))
    (resp : List VarBind) (hlen : resp.length = oids.length) :
    (multigetnextProcess oids resp =
        .ok (resp.takeWhile (fun vb => vb.value ≠ SnmpValue.endOfMibView)) ↔
      ∀ p ∈ oids.zip ((resp.takeWhile
          (fun vb => vb.value ≠ SnmpValue.endOfMibView)).map VarBind.oid),
        oidLtB p.1 p.2 = true) ∧
    (multigetnextProcess oids resp =
        .error (.faultySNMPImplementation "The OID is not a successor!") ↔
      ∃ p ∈ oids.zip ((resp.takeWhile
          (fun vb => vb.value ≠ SnmpValue.endOfMibView)).map VarBind.oid),
        oidLtB p.1 p.2 = false) := by
  rw [multigetnextProcess, if_neg (by simp [hlen])]
  cases hf : firstNonSuccessor oids
      (resp.takeWhile (fun vb => vb.value ≠ SnmpValue.endOfMibView)) with
  | none =>
    simp only [hf]
    have hall := (firstNonSuccessor_eq_none_iff _ _).mp hf
    constructor
    · exact ⟨fun _ => hall, fun _ => trivial⟩
    · constructor
      · intro h; cases h
      · rintro ⟨p, hp, hfail⟩
        rw [hall p hp] at hfail
        cases hfail
  | some pr =>
    simp only [hf]
    have hnot : ¬ ∀ p ∈ oids.zip ((resp.takeWhile
        (fun vb => vb.value ≠ SnmpValue.endOfMibView)).map VarBind.oid),
        oidLtB p.1 p.2 = true := by
      intro hall
      rw [(firstNonSuccessor_eq_none_iff _ _).mpr hall] at hf
      cases hf
    constructor
    · constructor
      · intro h; cases h
      · intro hall; exact absurd hall hnot
    · constructor
      · intro _
        push_neg at hnot
        obtain ⟨p, hp, hfail⟩ := hnot
        refine ⟨p, hp, ?_⟩
        cases hb : oidLtB p.1 p.2 with
        | false => rfl
        | true => exact absurd hb hfail
      · intro _; trivial

/-- Witness for C10: the characterization evaluated on a concrete
response with a trailing `EndOfMibView`. -/
theorem claim_C10_witness :
    (multigetnextProcess [[1], [2]] [⟨[1, 1], .int 1⟩, ⟨[3], .endOfMibView⟩] =
        .ok (([⟨[1, 1], .int 1⟩, ⟨[3], .endOfMibView⟩] : List VarBind).takeWhile
          (fun vb => vb.value ≠ SnmpValue.endOfMibView)) ↔
      ∀ p ∈ ([[1], [2]] : List (List Nat)).zip
          ((([⟨[1, 1], .int 1⟩, ⟨[3], .endOfMibView⟩] : List VarBind).takeWhile
            (fun vb => vb.value ≠ SnmpValue.endOfMibView)).map VarBind.oid),
        oidLtB p.1 p.2 = true) ∧
    (multigetnextProcess [[1], [2]] [⟨[1, 1], .int 1⟩, ⟨[3], .endOfMibView⟩] =
        .error (.faultySNMPImplementation "The OID is not a successor!") ↔
      ∃ p ∈ ([[1], [2]] : List (List Nat)).zip
          ((([⟨[1, 1], .int 1⟩, ⟨[3], .endOfMibView⟩] : List VarBind).takeWhile
            (fun vb => vb.value ≠ SnmpValue.endOfMibView)).map VarBind.oid),
        oidLtB p.1 p.2 = false) :=
  claim_C10_multigetnext_truncation [[1], [2]]
    [⟨[1, 1], .int 1⟩, ⟨[3], .endOfMibView⟩] rfl

/-- C5 counterexample: a response with exactly one varbind per requested
OID in which an `EndOfMibView` appears in the middle.  The second
returned OID equals its requested OID (so it is not strictly greater),
yet `multigetnext` raises nothing and returns the empty list — it
truncated at the first `EndOfMibView`, so neither is the check applied
to the second varbind nor are only trailing `EndOfMibView` entries
dropped. -/
theorem claim_C5_counterexample :
    multigetnextProcess [[1], [2]] [⟨[9], .endOfMibView⟩, ⟨[2], .int 5⟩] = .ok [] ∧
    oidLtB [2] [2] = false :=
  ⟨rfl, rfl⟩

/-- C5 (amended): for a response with exactly one varbind per requested
OID, `multigetnext` either returns the prefix of the response strictly
before the first `EndOfMibView` varbind, or raises
`FaultySNMPImplementation`; and it raises exactly when some varbind of
that retained prefix has an OID that is not strictly greater than the
positionally corresponding requested OID. -/
theorem claim_C5_amended_multigetnext (oids : List (List Nat))
    (resp : List VarBind) (hlen : resp.length = oids.length) :
    (multigetnextProcess oids resp =
        .ok (resp.takeWhile (fun vb => vb.value ≠ SnmpValue.endOfMibView)) ∨
      multigetnextProcess oids resp =
        .error (.faultySNMPImplementation "The OID is not a successor!")) ∧
    (multigetnextProcess oids resp =
        .error (.faultySNMPImplementation "The OID is not a successor!") ↔
      ∃ p ∈ oids.zip ((resp.takeWhile
          (fun vb => vb.value ≠ SnmpValue.endOfMibView)).map VarBind.oid),
        oidLtB p.1 p.2 = false) := by
  rw [multigetnextProcess, if_neg (by simp [hlen])]
  cases hf : firstNonSuccessor oids
      (resp.takeWhile (fun vb => vb.value ≠ SnmpValue.endOfMibView)) with
  | none =>
    simp only [hf]
    have hall := (firstNonSuccessor_eq_none_iff _ _).mp hf
    refine ⟨Or.inl trivial, ?_, ?_⟩
    · intro h; cases h
    · rintro ⟨p, hp, hfail⟩
      rw [hall p hp] at hfail
      cases hfail
  | some pr =>
    simp only [hf]
    have hnot : ¬ ∀ p ∈ oids.zip ((resp.takeWhile
        (fun vb => vb.value ≠ SnmpValue.endOfMibView)).map VarBind.oid),
        oidLtB p.1 p.2 = true := by
      intro hall
      rw [(firstNonSuccessor_eq_none_iff _ _).mpr hall] at hf
      cases hf
    refine ⟨Or.inr trivial, ?_, ?_⟩
    · intro _
      push_neg at hnot
      obtain ⟨p, hp, hfail⟩ := hnot
      refine ⟨p, hp, ?_⟩
      cases hb : oidLtB p.1 p.2 with
      | false => rfl
      | true => exact absurd hb hfail
    · intro _; trivial

/-- Witness for the amended C5, evaluated on the counterexample input
(whose retained prefix is empty, so no check fails and the empty list is
returned). -/
theorem claim_C5_witness :
    (multigetnextProcess [[1], [2]] [⟨[9], .endOfMibView⟩, ⟨[2], .int 5⟩] =
        .ok (([⟨[9], .endOfMibView⟩, ⟨[2], .int 5⟩] : List VarBind).takeWhile
          (fun vb => vb.value ≠ SnmpValue.endOfMibView)) ∨
      multigetnextProcess [[1], [2]] [⟨[9], .endOfMibView⟩, ⟨[2], .int 5⟩] =
        .error (.faultySNMPImplementation "The OID is not a successor!")) ∧
    (multigetnextProcess [[1], [2]] [⟨[9], .endOfMibView⟩, ⟨[2], .int 5⟩] =
        .error (.faultySNMPImplementation "The OID is not a successor!") ↔
      ∃ p ∈ ([[1], [2]] : List (List Nat)).zip
          ((([⟨[9], .endOfMibView⟩, ⟨[2], .int 5⟩] : List VarBind).takeWhile
            (fun vb => vb.value ≠ SnmpValue.endOfMibView)).map VarBind.oid),
        oidLtB p.1 p.2 = false) :=
  claim_C5_amended_multigetnext [[1], [2]] [⟨[9], .endOfMibView⟩, ⟨[2], .int 5⟩] rfl

/-! ## `bulkget` bound -/

/-- The maximal varbind count tolerated by `bulkget` as the claim states
it: with `nP = len(scalar_oids)` and `rP = len(repeating_oids)`,
`n = min(nP, nP + rP)`, `r = max((nP + rP) - n, 0)`, the bound is
`n + m * r`. -/
def claimBulkBound (nP rP : Nat) (m : Int) : Int :=
  min (nP : Int) ((nP : Int) + (rP : Int)) +
    m * max (((nP : Int) + (rP : Int)) - min (nP : Int) ((nP : Int) + (rP : Int))) 0

/-- C4: `bulkget` raises `SnmpError` if and only if the response carries
strictly more than `n + m * r` varbinds (in the claim's notation), and
otherwise returns a `BulkResult`. -/
theorem claim_C4_bulkget_bound (scalarOids repeatingOids : List (List Nat))
    (m : Int) (resp : List VarBind) :
    ((∃ msg, bulkgetProcess scalarOids repeatingOids m resp =
        .error (.snmpError msg)) ↔
      (resp.length : Int) > claimBulkBound scalarOids.length repeatingOids.length m) ∧
    ((∃ br, bulkgetProcess scalarOids repeatingOids m resp = .ok br) ↔
      ¬ (resp.length : Int) > claimBulkBound scalarOids.length repeatingOids.length m) := by
  simp only [bulkgetProcess, List.length_append, Nat.cast_add]
  split_ifs with h
  · refine ⟨⟨fun _ => h, fun _ => ⟨_, rfl⟩⟩, ?_, fun hn => absurd h hn⟩
    rintro ⟨br, hbr⟩; cases hbr
  · refine ⟨⟨?_, fun hgt => absurd hgt h⟩, fun _ => h, fun _ => ⟨_, rfl⟩⟩
    rintro ⟨msg, hmsg⟩; cases hmsg

/-- Witness for C4: a response of three varbinds against one scalar and
one repeating OID with `max_list_size = 1` (bound `1 + 1 * 1 = 2`) is
rejected. -/
theorem claim_C4_witness :
    ((∃ msg, bulkgetProcess [[1]] [[2]] 1
        [⟨[1, 1], .int 1⟩, ⟨[2, 1], .int 2⟩, ⟨[2, 2], .int 3⟩] =
          .error (.snmpError msg)) ↔
      (([⟨[1, 1], .int 1⟩, ⟨[2, 1], .int 2⟩, ⟨[2, 2], .int 3⟩] :
          List VarBind).length : Int) > claimBulkBound 1 1 1) ∧
    ((∃ br, bulkgetProcess [[1]] [[2]] 1
        [⟨[1, 1], .int 1⟩, ⟨[2, 1], .int 2⟩, ⟨[2, 2], .int 3⟩] = .ok br) ↔
      ¬ (([⟨[1, 1], .int 1⟩, ⟨[2, 1], .int 2⟩, ⟨[2, 2], .int 3⟩] :
          List VarBind).length : Int) > claimBulkBound 1 1 1) :=
  claim_C4_bulkget_bound [[1]] [[2]] 1
    [⟨[1, 1], .int 1⟩, ⟨[2, 1], .int 2⟩, ⟨[2, 2], .int 3⟩]

/-! ## `multiset` request ids -/

/-- C3 (behaviour at the bug): `multiset` draws one request id for the
`SetRequest` PDU and a second, distinct one for response validation.
For every counter state the two ids differ, and concretely at counter 0
the PDU carries id 0 while validation expects id 1, so a response
echoing the PDU's own request id fails with the request-id-mismatch
`SnmpError`. -/
theorem claim_C3_multiset_distinct_ids :
    (∀ (counter : Nat) (binds : List VarBind),
      (multisetSend counter binds).1.request_id ≠ (multisetSend counter binds).2.1) ∧
    (multisetSend 0 []).1.request_id = 0 ∧
    (multisetSend 0 []).2.1 = 1 ∧
    validateResponseId (multisetSend 0 []).2.1 (multisetSend 0 []).1.request_id =
      .error (.snmpError "request id mismatch") := by
  refine ⟨?_, rfl, rfl, rfl⟩
  intro counter binds
  simp only [multisetSend, getRequestId]
  omega

/-! ## USM credential checks -/

/-- C6 counterexample: with privacy configured and authentication
absent, `generate_request_message` does not raise
`UnsupportedSecurityLevel` — evaluating `credentials.auth.method` on the
absent auth credentials raises a Python `AttributeError` instead. -/
theorem claim_C6_counterexample :
    generateRequestMessage (fun _ _ _ => []) (fun _ _ _ _ => ([], [])) [([], 0, 0)]
        ⟨3, ⟨0, 0, ⟨true, true, true⟩, 3⟩, [], .plain []⟩ []
        (.v3 [7] none (some ⟨"des", [1]⟩)) = .error .attributeError ∧
    PyError.attributeError.isUnsupportedSecurityLevel = false :=
  ⟨rfl, rfl⟩

/-- C6 (amended): with privacy configured and authentication absent or
lacking a method, `generate_request_message` (given a populated engine
entry) fails early — with a Python `AttributeError` when auth is absent,
and with `UnsupportedSecurityLevel` when auth is present but its method
is unset — and therefore never produces any message, in particular none
with the priv flag but not the auth flag. -/
theorem claim_C6_amended_priv_requires_auth
    (aF : List Nat → List Nat → List Nat → List Nat)
    (eF : List Nat → List Nat → Nat → List Nat → List Nat × List Nat)
    (lc : LcdModel) (msg : Message) (eng : List Nat) (u : List Nat)
    (p : PrivCreds) (authc : Option AuthCreds) (bt : Nat × Nat)
    (hlc : lookupEngine lc eng = some bt)
    (hbad : authc = none ∨ ∃ a, authc = some a ∧ a.method = "") :
    ∃ e, generateRequestMessage aF eF lc msg eng (.v3 u authc (some p)) = .error e ∧
      (authc = none → e = .attributeError) ∧
      (∀ a, authc = some a →
        e = .unsupportedSecurityLevel
          "Security level needs privacy, but either auth-proto or priv-proto are missing") := by
  simp only [generateRequestMessage, hlc]
  rcases hbad with rfl | ⟨a, rfl, hm⟩
  · refine ⟨.attributeError, rfl, fun _ => rfl, ?_⟩
    intro a h; cases h
  · refine ⟨.unsupportedSecurityLevel
      "Security level needs privacy, but either auth-proto or priv-proto are missing",
      ?_, ?_, ?_⟩
    · simp only [if_pos (Or.inr hm)]
    · intro h; cases h
    · intro a2 ha2; rfl

/-- Witness for the amended C6: both failing shapes evaluated
concretely. -/
theorem claim_C6_witness :
    lookupEngine [([], 0, 0)] [] = some (0, 0) ∧
    (∃ e, generateRequestMessage (fun _ _ _ => []) (fun _ _ _ _ => ([], []))
        [([], 0, 0)] ⟨3, ⟨0, 0, ⟨true, true, true⟩, 3⟩, [], .plain []⟩ []
        (.v3 [7] (some ⟨"", [2]⟩) (some ⟨"des", [1]⟩)) = .error e ∧
      ((some (⟨"", [2]⟩ : AuthCreds)) = none → e = .attributeError) ∧
      (∀ a, (some (⟨"", [2]⟩ : AuthCreds)) = some a →
        e = .unsupportedSecurityLevel
          "Security level needs privacy, but either auth-proto or priv-proto are missing")) :=
  ⟨rfl,
    claim_C6_amended_priv_requires_auth (fun _ _ _ => []) (fun _ _ _ _ => ([], []))
      [([], 0, 0)] ⟨3, ⟨0, 0, ⟨true, true, true⟩, 3⟩, [], .plain []⟩ [] [7]
      ⟨"des", [1]⟩ (some ⟨"", [2]⟩) (0, 0) rfl (Or.inr ⟨⟨"", [2]⟩, rfl, rfl⟩)⟩

/-- C7 counterexample: an incoming message whose USM `user_name` differs
from the credentials username fails with a plain
`SnmpError("Unknown User")`, which is not an instance of the `USMError`
class — there is no `UnknownUser` USM subkind in the code. -/
theorem claim_C7_counterexample :
    processIncomingMessage (fun _ => none) (fun _ => none)
        ⟨3, ⟨0, 0, ⟨false, false, true⟩, 3⟩,
          encodeSecParams ⟨[], 0, 0, [1], [], []⟩, .plain []⟩
        (.v3 [2] none none) = .error (.snmpError "Unknown User") ∧
    (PyError.snmpError "Unknown User").isUSMError = false :=
  ⟨rfl, rfl⟩

/-- C7 (amended): for every incoming v3 message whose USM `user_name`
differs from the credentials username, `process_incoming_message` fails
with a plain `SnmpError` identifying the unknown user, and it does so
before performing any authentication or decryption: the result is this
error for every auth and priv plugin registry. -/
theorem claim_C7_amended_unknown_user
    (aCr : String → Option AuthAlg) (pCr : String → Option PrivAlg)
    (msg : Message) (u : List Nat) (authc : Option AuthCreds)
    (privc : Option PrivCreds) (sp : USMSecurityParameters)
    (hDec : decodeSecParams msg.security_parameters = some sp)
    (hNe : sp.user_name ≠ u) :
    processIncomingMessage aCr pCr msg (.v3 u authc privc) =
      .error (.snmpError "Unknown User") := by
  simp only [processIncomingMessage, hDec, credUsername]
  rw [if_pos hNe]

/-- Witness for the amended C7, evaluated with a concrete wrong-user
message. -/
theorem claim_C7_witness :
    decodeSecParams (encodeSecParams ⟨[], 0, 0, [1], [], []⟩) =
      some ⟨[], 0, 0, [1], [], []⟩ ∧
    ([1] : List Nat) ≠ [2] ∧
    processIncomingMessage (fun _ => none) (fun _ => none)
        ⟨3, ⟨0, 0, ⟨false, false, true⟩, 3⟩,
          encodeSecParams ⟨[], 0, 0, [1], [], []⟩, .plain []⟩
        (.v3 [2] none none) = .error (.snmpError "Unknown User") :=
  ⟨rfl, by decide,
    claim_C7_amended_unknown_user (fun _ => none) (fun _ => none)
      ⟨3, ⟨0, 0, ⟨false, false, true⟩, 3⟩,
        encodeSecParams ⟨[], 0, 0, [1], [], []⟩, .plain []⟩
      [2] none none ⟨[], 0, 0, [1], [], []⟩ rfl (by decide)⟩

/-- C9: `process_incoming_message` resolves the auth method from
`credentials.auth.method` unconditionally, before inspecting the
message's auth flag; with auth credentials absent it therefore fails
(with a Python `AttributeError`) even for a message whose auth flag is
cleared and which would need no authentication. -/
theorem claim_C9_auth_resolved_before_flag
    (aCr : String → Option AuthAlg) (pCr : String → Option PrivAlg)
    (msg : Message) (u : List Nat) (privc : Option PrivCreds)
    (sp : USMSecurityParameters)
    (hDec : decodeSecParams msg.security_parameters = some sp)
    (hU : sp.user_name = u)
    (_hFlag : msg.global_data.flags.auth = false) :
    processIncomingMessage aCr pCr msg (.v3 u none privc) =
      .error .attributeError := by
  simp only [processIncomingMessage, hDec, credUsername, credAuth]
  rw [if_neg (by simp [hU])]

/-- Witness for C9: a concrete unauthenticated message addressed to the
right user still fails when the credentials carry no auth part. -/
theorem claim_C9_witness :
    decodeSecParams (encodeSecParams ⟨[], 0, 0, [3], [], []⟩) =
      some ⟨[], 0, 0, [3], [], []⟩ ∧
    (⟨3, ⟨0, 0, ⟨false, false, true⟩, 3⟩,
        encodeSecParams ⟨[], 0, 0, [3], [], []⟩,
        .plain []⟩ : Message).global_data.flags.auth = false ∧
    processIncomingMessage (fun _ => none) (fun _ => none)
        ⟨3, ⟨0, 0, ⟨false, false, true⟩, 3⟩,
          encodeSecParams ⟨[], 0, 0, [3], [], []⟩, .plain []⟩
        (.v3 [3] none none) = .error .attributeError :=
  ⟨rfl, rfl,
    claim_C9_auth_resolved_before_flag (fun _ => none) (fun _ => none)
      ⟨3, ⟨0, 0, ⟨false, false, true⟩, 3⟩,
        encodeSecParams ⟨[], 0, 0, [3], [], []⟩, .plain []⟩
      [3] none ⟨[], 0, 0, [3], [], []⟩ rfl rfl rfl⟩

/-! ## `reconfigure` frame -/

/-- C8: on every exit path — the body returning normally or failing —
`reconfigure` restores the client's config and mpm to exactly the values
held on entry, whatever the body did to them; the body's outcome is
passed through; and inside the scope the config is the entry config with
the overrides applied while the mpm is rebuilt (with a fresh empty LCD)
exactly when the override changes the concrete credentials class. -/
theorem claim_C8_reconfigure_restores (s : ClientState) (o : Overrides)
    (body : ClientState → Except PyError Unit × ClientState) :
    (reconfigureRun s o body).2 = s ∧
    (reconfigureRun s o body).1 = (body (reconfigureMid s o)).1 ∧
    (reconfigureMid s o).config = applyOverrides s.config o ∧
    (reconfigureMid s o).mpm =
      (match o.credentials with
       | some nc =>
         if credKind s.config.credentials = credKind nc then s.mpm
         else mpmCreate (credMpmVersion nc) []
       | none => s.mpm) :=
  ⟨rfl, rfl, rfl, rfl⟩

/-- Witness for C8: a concrete run whose body fails and mutates the
config; the state afterwards is nevertheless the entry state. -/
theorem claim_C8_witness :
    (reconfigureRun ⟨⟨.v2c [1], ⟨[], []⟩, [], 6, 10⟩, ⟨1, []⟩⟩
        ⟨some (.v3 [2] none none), none, none, some 3, none⟩
        (fun st => (.error .keyError,
          { st with config := { st.config with timeout := 99 } }))).2 =
      ⟨⟨.v2c [1], ⟨[], []⟩, [], 6, 10⟩, ⟨1, []⟩⟩ ∧
    (reconfigureRun ⟨⟨.v2c [1], ⟨[], []⟩, [], 6, 10⟩, ⟨1, []⟩⟩
        ⟨some (.v3 [2] none none), none, none, some 3, none⟩
        (fun st => (.error .keyError,
          { st with config := { st.config with timeout := 99 } }))).1 =
      ((fun (st : ClientState) => ((.error .keyError : Except PyError Unit),
          { st with config := { st.config with timeout := 99 } }))
        (reconfigureMid ⟨⟨.v2c [1], ⟨[], []⟩, [], 6, 10⟩, ⟨1, []⟩⟩
          ⟨some (.v3 [2] none none), none, none, some 3, none⟩)).1 ∧
    (reconfigureMid ⟨⟨.v2c [1], ⟨[], []⟩, [], 6, 10⟩, ⟨1, []⟩⟩
        ⟨some (.v3 [2] none none), none, none, some 3, none⟩).config =
      applyOverrides ⟨.v2c [1], ⟨[], []⟩, [], 6, 10⟩
        ⟨some (.v3 [2] none none), none, none, some 3, none⟩ ∧
    (reconfigureMid ⟨⟨.v2c [1], ⟨[], []⟩, [], 6, 10⟩, ⟨1, []⟩⟩
        ⟨some (.v3 [2] none none), none, none, some 3, none⟩).mpm =
      (match (⟨some (.v3 [2] none none), none, none, some 3, none⟩ : Overrides).credentials with
       | some nc =>
         if credKind (Credentials.v2c [1]) = credKind nc then (⟨1, []⟩ : MPModel)
         else mpmCreate (credMpmVersion nc) []
       | none => ⟨1, []⟩) :=
  claim_C8_reconfigure_restores ⟨⟨.v2c [1], ⟨[], []⟩, [], 6, 10⟩, ⟨1, []⟩⟩
    ⟨some (.v3 [2] none none), none, none, some 3, none⟩
    (fun st => (.error .keyError,
      { st with config := { st.config with timeout := 99 } }))

end PureSnmp
